import Mathlib

/-! Emergency D20: a shallow embedding of `scripts/emergency-d20.js`.

The script grants an actor a consumable reroll of a d20 check.  The embedding
follows the source function by function.

Modelling conventions.
* JavaScript values are modelled by `JSVal` as far as the script inspects
  them (`typeof v === "number"`, truthiness).  Numbers are integers: the counts,
  die totals and modifiers the script handles; `NaN`, infinities and fractions
  are outside the model.
* An optional reference (`item`, `sys?.uses`, `message.rolls`) is an `Option`.
* The host (Foundry) calls `item.update`, `message.setFlag`, `roll.toMessage`
  and `ui.notifications` are modelled by explicit state passing on `World`;
  every host call is taken to succeed.
-/

namespace EmergencyD20

/-! ## Data model -/

/-- A JavaScript value, as far as the script distinguishes values. -/
inductive JSVal where
  | undefined
  | null
  | num (n : Int)
  | str (s : String)
  | bool (b : Bool)
  deriving DecidableEq, Repr

/-- The test `typeof v === "number"`. -/
def JSVal.isNumber : JSVal → Bool
  | .num _ => true
  | _ => false

/-- The object `sys.uses`, of which the script reads the field `value`. -/
structure Uses where
  value : JSVal
  deriving DecidableEq, Repr

/-- The system data of an item: `quantity`, and `uses` (`none` when the field is
absent or falsy). -/
structure SystemData where
  quantity : JSVal
  uses : Option Uses
  deriving DecidableEq, Repr

/-- An item document.  `system` is `item.system`, `dataData` is `item.data?.data`;
each is `none` when nullish. -/
structure Item where
  id : String
  name : String
  system : Option SystemData
  dataData : Option SystemData
  deriving DecidableEq, Repr

/-- The argument of `item.update`: the keys assigned to `update`, in order. -/
abbrev ItemUpdate := List (String × Int)

/-- One term of a roll: `isDie` is `term instanceof foundry.dice.terms.Die`,
`faces` and `total` are `none` when the property is undefined. -/
structure RollTerm where
  isDie : Bool
  faces : Option Int
  total : Option Int
  deriving DecidableEq, Repr

/-- An evaluated roll: `terms` and `dice` are `none` when nullish, `flavor` is
`roll.options?.flavor`. -/
structure Roll where
  terms : Option (List RollTerm)
  dice : Option (List RollTerm)
  total : Int
  flavor : Option String
  deriving DecidableEq, Repr

/-- The speaker of a chat message. -/
structure Speaker where
  actor : Option String
  token : Option String
  deriving DecidableEq, Repr

/-- The flags of a chat message in the scope `emergency-d20`; a flag never set
is `none`. -/
structure E20Flags where
  used : Option Bool
  isEmergency : Option Bool
  sourceMessageId : Option String
  actorId : Option String
  itemId : Option String
  deriving DecidableEq, Repr

/-- A chat message: `rolls` is `none` when nullish. -/
structure ChatMessage where
  id : String
  rolls : Option (List Roll)
  speaker : Option Speaker
  flavor : Option String
  flags : E20Flags
  deriving DecidableEq, Repr

/-- An actor, seen by the current user: `isOwner` is `actor.isOwner`. -/
structure Actor where
  id : String
  isOwner : Bool
  items : List Item
  deriving DecidableEq, Repr

/-- A call of `ui.notifications`. -/
inductive Notification where
  | warn (text : String)
  | info (text : String)
  deriving DecidableEq, Repr

/-- What `roll.toMessage` receives: the formula of the new roll and the message
data (speaker, flavor, flags of this module). -/
structure PublishedMessage where
  formula : String
  speaker : Option Speaker
  flavor : String
  flags : E20Flags
  deriving DecidableEq, Repr

/-- The state an invocation of `handleEmergencyD20Click` reads and writes: the
documents its arguments refer to, `game.user.isGM`, whether the wrapper of
`buttonElement` is still displayed, and the calls made to the host so far
(oldest first). -/
structure World where
  userIsGM : Bool
  message : ChatMessage
  actor : Actor
  item : Item
  buttonShown : Bool
  itemUpdates : List ItemUpdate
  published : List PublishedMessage
  notifications : List Notification
  deriving DecidableEq, Repr

/-! ## Availability Gate and Consumption Ledger -/

/-- The expression `item.system ?? item.data?.data`. -/
def sysOf (item : Item) : Option SystemData :=
  match item.system with
  | some s => some s
  | none => item.dataData

/-- The expression `sys?.quantity`. -/
def quantityOf (sys : Option SystemData) : JSVal :=
  match sys with
  | some s => s.quantity
  | none => .undefined

/-- The expression `sys?.uses`. -/
def usesOf (sys : Option SystemData) : Option Uses :=
  match sys with
  | some s => s.uses
  | none => none

/-- `hasUsesRemaining(item)` (lines 51-64). -/
def hasUsesRemaining (item : Option Item) : Bool :=
  match item with
  | none => false
  | some item =>
    let sys := sysOf item
    match quantityOf sys with
    | .num q => decide (q > 0)
    | _ =>
      match usesOf sys with
      | some uses =>
        match uses.value with
        | .num v => decide (v > 0)
        | _ => true
      | none => true

/-- The outcome of `consumeEmergencyD20`: the boolean it resolves to and the
argument of the `item.update` call it made, if it made one. -/
structure ConsumeResult where
  result : Bool
  issued : Option ItemUpdate
  deriving DecidableEq, Repr

/-- `consumeEmergencyD20(item)` (lines 66-90). -/
def consumeEmergencyD20 (item : Option Item) : ConsumeResult :=
  match item with
  | none => ⟨false, none⟩
  | some item =>
    let sys := sysOf item
    match quantityOf sys with
    | .num q =>
      if q ≤ 0 then ⟨false, none⟩
      else ⟨true, some [("system.quantity", q - 1)]⟩
    | _ =>
      match usesOf sys with
      | some uses =>
        match uses.value with
        | .num v =>
          if v ≤ 0 then ⟨false, none⟩
          else ⟨true, some [("system.uses.value", v - 1)]⟩
        | _ => ⟨true, none⟩
      | none => ⟨true, none⟩

/-- The host writing one key of an update into the system data. -/
def applyKey (s : SystemData) (kv : String × Int) : SystemData :=
  if kv.1 = "system.quantity" then { s with quantity := .num kv.2 }
  else if kv.1 = "system.uses.value" then { s with uses := some ⟨.num kv.2⟩ }
  else s

/-- The host side of `item.update(update)`: each key of the partial update is
written at its path under `item.system` (created when absent); nothing else of
the item changes. -/
def applyUpdate (item : Item) (update : ItemUpdate) : Item :=
  { item with
    system := some (update.foldl applyKey (item.system.getD ⟨.undefined, none⟩)) }

/-- The remaining count in the words of the specification: the quantity if it
is a number, else the uses value if it is a number, else none. -/
def remainingCount (item : Item) : Option Int :=
  match quantityOf (sysOf item) with
  | .num q => some q
  | _ =>
    match usesOf (sysOf item) with
    | some uses =>
      match uses.value with
      | .num v => some v
      | _ => none
    | none => none

/-! ## Modifier Extractor and reroll formula -/

/-- `computeModifierFromRoll(roll)` (lines 102-115): the loop over `roll.terms`
accumulates `d20Total`. -/
def computeModifierFromRoll (roll : Roll) : Int :=
  let terms := roll.terms.getD []
  let d20Total := terms.foldl
    (fun acc term =>
      if term.isDie && term.faces == some 20 then acc + term.total.getD 0 else acc) 0
  if d20Total = 0 then 0 else roll.total - d20Total

/-- The formula of line 268: the template literal renders the modifier in
decimal, after a `+` when it is not negative. -/
def rerollFormula (modifier : Int) : String :=
  if modifier = 0 then "1d20"
  else "1d20" ++ (if modifier ≥ 0 then "+" else "") ++ toString modifier

/-- A 20-sided die term, as line 108 tests it. -/
def isD20Term (term : RollTerm) : Bool :=
  term.isDie && term.faces == some 20

/-- The sum of the totals of the 20-sided die terms of a roll, in the words of
the specification (an undefined total counts 0). -/
def d20TermTotals (roll : Roll) : Int :=
  (((roll.terms.getD []).filter isD20Term).map (fun term => term.total.getD 0)).sum

/-- Reading a run of decimal digits, most significant first, onto `acc`;
`none` when a character is not a digit. -/
def readDigits (acc : Nat) : List Char → Option Nat
  | [] => some acc
  | c :: cs => if c.isDigit then readDigits (acc * 10 + (c.toNat - 48)) cs else none

/-- Reading the signed constant that follows the die of a formula: nothing
(0), `+` and digits, or `-` and digits. -/
def readConstant : List Char → Option Int
  | [] => some 0
  | '+' :: c :: cs => (readDigits 0 (c :: cs)).map Int.ofNat
  | '-' :: c :: cs => (readDigits 0 (c :: cs)).map (fun n => - Int.ofNat n)
  | _ => none

/-- Reading a formula `1d20`, `1d20+k` or `1d20-k` back: its signed constant. -/
def readFormula (formula : String) : Option Int :=
  match formula.data with
  | '1' :: 'd' :: '2' :: '0' :: rest => readConstant rest
  | _ => none

/-- The value of a formula read back as die value plus signed constant, for the
die value `v`. -/
def evalFormula (formula : String) (v : Int) : Option Int :=
  (readFormula formula).map (fun k => v + k)

/-! ## Reroll Orchestrator -/

/-- Appending one call of `ui.notifications` to the log. -/
def notify (w : World) (n : Notification) : World :=
  { w with notifications := w.notifications ++ [n] }

/-- The expression `a || b` for `a` a string or undefined: `b` when `a` is
undefined or empty. -/
def strOr (a : Option String) (b : String) : String :=
  match a with
  | some s => if s = "" then b else s
  | none => b

/-- The host side of `message.setFlag("emergency-d20", "used", true)`. -/
def setUsed (message : ChatMessage) : ChatMessage :=
  { message with flags := { message.flags with used := some true } }

/-- The host side of `newMessage.setFlag("emergency-d20", "isEmergency", true)`. -/
def setIsEmergency (m : PublishedMessage) : PublishedMessage :=
  { m with flags := { m.flags with isEmergency := some true } }

/-- The host side of `await item.update(update)` inside `consumeEmergencyD20`:
the update, when one was issued, is logged and applied to the item. -/
def recordUpdate (w : World) (issued : Option ItemUpdate) : World :=
  match issued with
  | some update =>
    { w with item := applyUpdate w.item update, itemUpdates := w.itemUpdates ++ [update] }
  | none => w

/-- `handleEmergencyD20Click({ message, actor, item, buttonElement })` (lines
246-310) on the documents of `w`.  The first statement reads `actor.id` and
`item.id`, so the actor and the item are not null when the guards run and the
disjuncts `!actor` and `!item` are false. -/
def handleEmergencyD20Click (w : World) : World :=
  if !w.actor.isOwner && !w.userIsGM then
    notify w (.warn "You do not control this actor.")
  else if !hasUsesRemaining (some w.item) then
    notify w (.warn "No Emergency D20 remaining.")
  else
    match w.message.rolls.getD [] with
    | [] => w
    | originalRoll :: _ =>
      let modifier := computeModifierFromRoll originalRoll
      let formula := rerollFormula modifier
      let consumed := consumeEmergencyD20 (some w.item)
      let w1 := recordUpdate w consumed.issued
      if !consumed.result then
        notify w1 (.warn "Could not consume an Emergency D20.")
      else
        let w2 := { w1 with message := setUsed w1.message }
        let flavorBase := strOr originalRoll.flavor (strOr w2.message.flavor "Emergency D20")
        let flavor := flavorBase ++ " (Emergency D20)"
        let newMessage : PublishedMessage :=
          { formula := formula
            speaker := w2.message.speaker
            flavor := flavor
            flags :=
              { used := none
                isEmergency := some true
                sourceMessageId := some w2.message.id
                actorId := some w2.actor.id
                itemId := some w2.item.id } }
        let w3 := { w2 with published := w2.published ++ [setIsEmergency newMessage] }
        let w4 := { w3 with buttonShown := false }
        notify w4 (.info "Emergency D20 used!")

/-- A run made no mutation: the item, the message, the update log, the
published messages and the displayed button are as before. -/
def noMutation (w w' : World) : Prop :=
  w'.item = w.item ∧ w'.message = w.message ∧ w'.itemUpdates = w.itemUpdates ∧
  w'.published = w.published ∧ w'.buttonShown = w.buttonShown ∧
  w'.actor = w.actor ∧ w'.userIsGM = w.userIsGM

instance (w w' : World) : Decidable (noMutation w w') := by
  unfold noMutation; infer_instance

/-- The path of the field holding the remaining count, in the words of the
specification: the quantity when it is a number, otherwise the uses value. -/
def countField (item : Item) : String :=
  if (quantityOf (sysOf item)).isNumber then "system.quantity" else "system.uses.value"

/-! ## Host context, Resource Locator and Check Classifier -/

/-- A token on the canvas: `actor` is `token.actor`, `none` when nullish. -/
structure Token where
  id : String
  actor : Option Actor
  deriving DecidableEq, Repr

/-- The layer `canvas.tokens`: the tokens placed on the scene and the ones
currently selected. -/
structure TokenLayer where
  placeables : List Token
  controlled : List Token
  deriving DecidableEq, Repr

/-- The host context the script reads: `game.user.isGM`, the setting
`itemName`, the collections `game.actors` and `game.messages`, and
`canvas?.tokens` (`none` when nullish). -/
structure Game where
  userIsGM : Bool
  itemName : String
  actors : List Actor
  messages : List ChatMessage
  tokens : Option TokenLayer
  deriving DecidableEq, Repr

/-- The lookup `game.actors.get(id)`. -/
def actorById (g : Game) (id : String) : Option Actor :=
  g.actors.find? (fun a => a.id == id)

/-- The lookup `canvas.tokens.get(id)`. -/
def tokenById (layer : TokenLayer) (id : String) : Option Token :=
  layer.placeables.find? (fun t => t.id == id)

/-- Truthiness of a string that may be undefined: defined and not empty. -/
def truthyStr (s : Option String) : Bool :=
  match s with
  | some t => t != ""
  | none => false

/-- The first branch of `getActorFromSpeaker` (lines 27-30): the actor named by
`speaker.actor`. -/
def speakerActor (g : Game) (speaker : Speaker) : Option Actor :=
  if truthyStr speaker.actor then actorById g (speaker.actor.getD "") else none

/-- The second branch of `getActorFromSpeaker` (lines 32-35): the actor of the
token named by `speaker.token`. -/
def speakerTokenActor (g : Game) (speaker : Speaker) : Option Actor :=
  match g.tokens with
  | some layer =>
    if truthyStr speaker.token then
      match tokenById layer (speaker.token.getD "") with
      | some token => token.actor
      | none => none
    else none
  | none => none

/-- The third branch of `getActorFromSpeaker` (lines 37-39): the actor of the
single selected token. -/
def controlledActor (g : Game) : Option Actor :=
  match g.tokens with
  | some layer =>
    match layer.controlled with
    | [token] => token.actor
    | _ => none
  | none => none

/-- `getActorFromSpeaker(speaker)` (lines 24-42). -/
def getActorFromSpeaker (g : Game) (speaker : Option Speaker) : Option Actor :=
  match speaker with
  | none => none
  | some speaker =>
    match speakerActor g speaker with
    | some actor => some actor
    | none =>
      match speakerTokenActor g speaker with
      | some actor => some actor
      | none => controlledActor g

/-- `findEmergencyD20Item(actor)` (lines 44-48): `itemName` is read from the
settings of `g`. -/
def findEmergencyD20Item (g : Game) (actor : Option Actor) : Option Item :=
  match actor with
  | none => none
  | some actor => actor.items.find? (fun i => i.name == g.itemName)

/-- `isD20TestMessage(message)` (lines 92-100). -/
def isD20TestMessage (message : ChatMessage) : Bool :=
  match message.rolls.getD [] with
  | [] => false
  | roll :: _ =>
    let dice := roll.dice.getD []
    if dice.isEmpty then false
    else dice.any (fun d => d.faces == some 20)

/-! ## Render hook and click listener -/

/-- The button the render hook attaches: its three `data-` attributes. -/
structure Affordance where
  messageId : String
  actorId : String
  itemId : String
  deriving DecidableEq, Repr

/-- A flag read with `message.getFlag` and tested for truthiness. -/
def flagSet (flag : Option Bool) : Bool :=
  flag == some true

/-- The callback of `renderChatMessageHTML` (lines 123-242): the button it
attaches to the message, `none` when it returns before attaching one. -/
def renderChatMessageHTML (g : Game) (message : ChatMessage) : Option Affordance :=
  if flagSet message.flags.isEmergency then none
  else
    match message.rolls.getD [] with
    | [] => none
    | _ :: _ =>
      if !isD20TestMessage message then none
      else if flagSet message.flags.used then none
      else
        match getActorFromSpeaker g message.speaker with
        | none => none
        | some actor =>
          if !actor.isOwner && !g.userIsGM then none
          else
            match findEmergencyD20Item g (some actor) with
            | none => none
            | some item =>
              if !hasUsesRemaining (some item) then none
              else some ⟨message.id, actor.id, item.id⟩

/-- The outcome of a click: the listener returned before the orchestrator,
having emitted the given `ui.notifications` calls, or it entered
`handleEmergencyD20Click`, which left the given world. -/
inductive ClickResult where
  | unresolved (notifications : List Notification)
  | entered (w : World)
  deriving DecidableEq, Repr

/-- The actor the click listener resolves (lines 215-219): by id among
`game.actors`, else the actor of a placed token whose actor has that id. -/
def clickActor (g : Game) (actorId : String) : Option Actor :=
  match actorById g actorId with
  | some act => some act
  | none =>
    match g.tokens with
    | some layer =>
      match layer.placeables.find? (fun t =>
          match t.actor with
          | some a => a.id == actorId
          | none => false) with
      | some token => token.actor
      | none => none
    | none => none

/-- The click listener of the button (lines 200-237).  A missing message is
reported with `console.warn` only, which is no `ui.notifications` call. -/
def clickListener (g : Game) (button : Affordance) : ClickResult :=
  match g.messages.find? (fun m => m.id == button.messageId) with
  | none => .unresolved []
  | some msg =>
    match clickActor g button.actorId with
    | none => .unresolved [.warn "Emergency D20: Could not find actor."]
    | some act =>
      match act.items.find? (fun i => i.id == button.itemId) with
      | none => .unresolved [.warn "Emergency D20: Could not find Emergency D20 item."]
      | some itm =>
        .entered (handleEmergencyD20Click ⟨g.userIsGM, msg, act, itm, true, [], [], []⟩)

/-! ## Interleaving of two invocations, and repeated consumption -/

/-- An invocation of `handleEmergencyD20Click` suspended at
`await consumeEmergencyD20(item)`: the first roll, the formula built from it,
and what the ledger decided and issued from the item it read. -/
structure Suspended where
  originalRoll : Roll
  formula : String
  consumed : ConsumeResult
  deriving DecidableEq, Repr

/-- The part of `handleEmergencyD20Click` that runs without interruption, from
its first statement to the call `item.update(update)` inside
`consumeEmergencyD20` (lines 246-272 and 66-88): the world left by a run that
returned in this part, or the suspended invocation. -/
def clickPrefix (w : World) : World ⊕ Suspended :=
  if !w.actor.isOwner && !w.userIsGM then
    .inl (notify w (.warn "You do not control this actor."))
  else if !hasUsesRemaining (some w.item) then
    .inl (notify w (.warn "No Emergency D20 remaining."))
  else
    match w.message.rolls.getD [] with
    | [] => .inl w
    | originalRoll :: _ =>
      .inr ⟨originalRoll, rerollFormula (computeModifierFromRoll originalRoll),
        consumeEmergencyD20 (some w.item)⟩

/-- The rest of `handleEmergencyD20Click` (lines 273-310), run on the world
current when the invocation resumes: the host applies the issued update, then
the flag, the publication and the notification follow. -/
def clickResume (w : World) (s : Suspended) : World :=
  let w1 := recordUpdate w s.consumed.issued
  if !s.consumed.result then
    notify w1 (.warn "Could not consume an Emergency D20.")
  else
    let w2 := { w1 with message := setUsed w1.message }
    let flavorBase := strOr s.originalRoll.flavor (strOr w2.message.flavor "Emergency D20")
    let flavor := flavorBase ++ " (Emergency D20)"
    let newMessage : PublishedMessage :=
      { formula := s.formula
        speaker := w2.message.speaker
        flavor := flavor
        flags :=
          { used := none
            isEmergency := some true
            sourceMessageId := some w2.message.id
            actorId := some w2.actor.id
            itemId := some w2.item.id } }
    let w3 := { w2 with published := w2.published ++ [setIsEmergency newMessage] }
    let w4 := { w3 with buttonShown := false }
    notify w4 (.info "Emergency D20 used!")

/-- Two invocations on the same documents, the second started while the first
awaits its item update: both run their uninterrupted part on the same state
`w`, so both pass the gate and the ledger's guard before either update is
applied; then the first resumes, then the second.  When the first returns in
its uninterrupted part there is nothing to interleave and the second runs after
it. -/
def interleavedTwice (w : World) : World :=
  match clickPrefix w with
  | .inl w1 => handleEmergencyD20Click w1
  | .inr first =>
    match clickPrefix w with
    | .inl w2 => clickResume w2 first
    | .inr second => clickResume (clickResume w first) second

/-- One call of `consumeEmergencyD20` on the current item, with the host
applying the update it issued, if any. -/
def consumeStep (item : Item) : Item :=
  match (consumeEmergencyD20 (some item)).issued with
  | some update => applyUpdate item update
  | none => item

/-- A sequence of `n` calls of `consumeEmergencyD20`, each reading the item
left by the call before it. -/
def consumeTimes : Nat → Item → Item
  | 0, item => item
  | n + 1, item => consumeTimes n (consumeStep item)

/-- The quantity of the item is not a negative number. -/
def quantityNonneg (item : Item) : Bool :=
  match quantityOf (sysOf item) with
  | .num q => decide (0 ≤ q)
  | _ => true

/-- The uses value of the item is not a negative number. -/
def usesNonneg (item : Item) : Bool :=
  match usesOf (sysOf item) with
  | some uses =>
    match uses.value with
    | .num v => decide (0 ≤ v)
    | _ => true
  | none => true

/-- The first roll of the message has a die of 20 faces among its dice, in the
words of the specification. -/
def firstRollHasD20 (message : ChatMessage) : Prop :=
  ∃ roll rest, message.rolls = some (roll :: rest) ∧
    ∃ d ∈ roll.dice.getD [], d.faces = some 20

/-- The label of the original in the words of the specification: the roll's
flavor option, else the message flavor, else `Emergency D20`; a flavor that is
undefined or empty counts as absent. -/
def originalLabel (roll : Roll) (message : ChatMessage) : String :=
  if truthyStr roll.flavor then roll.flavor.getD ""
  else if truthyStr message.flavor then message.flavor.getD ""
  else "Emergency D20"

/-! ## Concrete inputs -/

/-- An item named `Emergency D20` with the given `item.system`. -/
def mkItem (system : Option SystemData) : Item :=
  ⟨"item1", "Emergency D20", system, none⟩

/-- An item with quantity `q` and no `uses`. -/
def quantityItem (q : Int) : Item :=
  mkItem (some ⟨.num q, none⟩)

/-- An item with quantity `q` and `uses.value = v`. -/
def bothItem (q v : Int) : Item :=
  mkItem (some ⟨.num q, some ⟨.num v⟩⟩)

/-- An item without a quantity and with `uses.value = v`. -/
def usesItem (v : Int) : Item :=
  mkItem (some ⟨.undefined, some ⟨.num v⟩⟩)

/-- An item whose quantity is a string and whose `uses` has no numeric value. -/
def unlimitedItem : Item :=
  mkItem (some ⟨.str "many", some ⟨.undefined⟩⟩)

/-- A die term of 20 faces with the given total. -/
def d20Term (total : Int) : RollTerm :=
  ⟨true, some 20, some total⟩

/-- A numeric term (not a die) with the given total. -/
def numericTerm (total : Int) : RollTerm :=
  ⟨false, none, some total⟩

/-- The roll `1d20 + 3` that came up 12: total 15. -/
def checkRoll : Roll :=
  ⟨some [d20Term 12, numericTerm 3], some [d20Term 12], 15, none⟩

/-- A roll `1d20cs>=15 + 3` whose die counted no success: the die term totals
0 and the roll totals 3. -/
def noSuccessRoll : Roll :=
  ⟨some [d20Term 0, numericTerm 3], some [d20Term 0], 3, none⟩

/-- A chat message carrying `checkRoll`, with no flag set. -/
def checkMessage : ChatMessage :=
  ⟨"msg1", some [checkRoll], some ⟨some "actor1", none⟩, some "Athletics",
    ⟨none, none, none, none, none⟩⟩

/-- The world of a click on `checkMessage` by a player who owns the actor
(`isOwner` as given, not a GM), for the given item; nothing logged yet. -/
def clickWorld (isOwner : Bool) (item : Item) : World :=
  ⟨false, checkMessage, ⟨"actor1", isOwner, [item]⟩, item, true, [], [], []⟩

/-- A die term of the given number of faces and total. -/
def dieTerm (faces total : Int) : RollTerm :=
  ⟨true, some faces, some total⟩

/-- A damage roll `2d6` that came up 7: no die of 20 faces. -/
def damageRoll : Roll :=
  ⟨some [dieTerm 6 7], some [dieTerm 6 7], 7, none⟩

/-- A chat message with the given rolls and flags `used` and `isEmergency`,
spoken by `actor1`. -/
def mkMessage (rolls : Option (List Roll)) (used isEmergency : Option Bool) : ChatMessage :=
  ⟨"msg1", rolls, some ⟨some "actor1", none⟩, some "Athletics",
    ⟨used, isEmergency, none, none, none⟩⟩

/-- An actor `actor1`, owned by the user, with the given items. -/
def ownedActor (items : List Item) : Actor :=
  ⟨"actor1", true, items⟩

/-- A world with the given messages in which the user owns `actor1`, who
carries one `Emergency D20` with quantity 3; no canvas. -/
def ownerGame (messages : List ChatMessage) : Game :=
  ⟨false, "Emergency D20", [ownedActor [quantityItem 3]], messages, none⟩

/-- An item with the given id and name and quantity 1. -/
def namedItem (id name : String) : Item :=
  ⟨id, name, some ⟨.num 1, none⟩, none⟩

/-- The roll `1d20 + 3` that came up 12, with the flavor option `Stealth`. -/
def stealthRoll : Roll :=
  ⟨some [d20Term 12, numericTerm 3], some [d20Term 12], 15, some "Stealth"⟩

end EmergencyD20

namespace EmergencyD20

/-! ## Availability Gate and Consumption Ledger: theorems -/

/-- Neither field numeric: the gate falls through to `true`. -/
theorem hasUsesRemaining_of_no_number (item : Item)
    (hq : (quantityOf (sysOf item)).isNumber = false)
    (hu : ∀ uses, usesOf (sysOf item) = some uses → uses.value.isNumber = false) :
    hasUsesRemaining (some item) = true := by
  cases hquant : quantityOf (sysOf item) <;>
    cases huses : usesOf (sysOf item) <;>
    simp_all [hasUsesRemaining, JSVal.isNumber] <;>
    split <;> simp_all [JSVal.isNumber]

/-- C1: `hasUsesRemaining` follows the four-case policy in order: an absent
item gives false; a numeric quantity `q` gives `q > 0` whatever `uses` holds;
otherwise a numeric `uses.value` `v` gives `v > 0`; otherwise the result is
true. -/
theorem hasUsesRemaining_policy :
    hasUsesRemaining none = false ∧
    (∀ (item : Item) (q : Int), quantityOf (sysOf item) = .num q →
      hasUsesRemaining (some item) = decide (q > 0)) ∧
    (∀ (item : Item) (uses : Uses) (v : Int),
      (quantityOf (sysOf item)).isNumber = false →
      usesOf (sysOf item) = some uses → uses.value = .num v →
      hasUsesRemaining (some item) = decide (v > 0)) ∧
    (∀ (item : Item), (quantityOf (sysOf item)).isNumber = false →
      (∀ uses, usesOf (sysOf item) = some uses → uses.value.isNumber = false) →
      hasUsesRemaining (some item) = true) := by
  refine ⟨rfl, ?_, ?_, ?_⟩
  · intro item q hq
    simp [hasUsesRemaining, hq]
  · intro item uses v hq hu hv
    cases hquant : quantityOf (sysOf item) <;>
      simp_all [hasUsesRemaining, JSVal.isNumber]
  · intro item hq hu
    exact hasUsesRemaining_of_no_number item hq hu

/-- The four cases of C1 at concrete items: no item; quantity 0 beside
`uses.value = 5`; no quantity and `uses.value = 2`; neither numeric. -/
theorem hasUsesRemaining_policy_witness :
    hasUsesRemaining none = false ∧
    hasUsesRemaining (some (bothItem 0 5)) = false ∧
    hasUsesRemaining (some (usesItem 2)) = true ∧
    hasUsesRemaining (some unlimitedItem) = true :=
  ⟨hasUsesRemaining_policy.1,
   hasUsesRemaining_policy.2.1 (bothItem 0 5) 0 rfl,
   hasUsesRemaining_policy.2.2.1 (usesItem 2) ⟨.num 2⟩ 2 rfl rfl rfl,
   hasUsesRemaining_policy.2.2.2 unlimitedItem rfl (by decide)⟩

/-- C2: when the remaining count (quantity if numeric, else `uses.value` if
numeric) is at most 0, `consumeEmergencyD20` returns false and issues no item
update. -/
theorem consume_exhausted (item : Item) (c : Int)
    (hcount : remainingCount item = some c) (hc : c ≤ 0) :
    consumeEmergencyD20 (some item) = ⟨false, none⟩ := by
  unfold remainingCount at hcount
  unfold consumeEmergencyD20
  cases hquant : quantityOf (sysOf item) <;>
    cases huses : usesOf (sysOf item) <;>
    simp_all <;>
    split at hcount <;> simp_all

/-- C2 at quantity 0 beside `uses.value = 5`, and at `uses.value = -1`. -/
theorem consume_exhausted_witness :
    consumeEmergencyD20 (some (bothItem 0 5)) = ⟨false, none⟩ ∧
    consumeEmergencyD20 (some (usesItem (-1))) = ⟨false, none⟩ :=
  ⟨consume_exhausted (bothItem 0 5) 0 rfl (by decide),
   consume_exhausted (usesItem (-1)) (-1) rfl (by decide)⟩

/-- C3: when the remaining count `c` is positive, `consumeEmergencyD20` returns
true and issues one update with exactly one key, set to `c - 1`:
`system.quantity` when the quantity is numeric, otherwise `system.uses.value`.
Applied to an item that has `system`, the update writes that field and leaves
the other one as it was (`uses` is unchanged when the quantity is numeric). -/
theorem consume_positive (item : Item) (c : Int)
    (hcount : remainingCount item = some c) (hc : 0 < c) :
    consumeEmergencyD20 (some item) = ⟨true, some [(countField item, c - 1)]⟩ ∧
    (∀ s, item.system = some s →
      (applyUpdate item [(countField item, c - 1)]).system =
        some (if (quantityOf (sysOf item)).isNumber
          then { quantity := .num (c - 1), uses := s.uses }
          else { quantity := s.quantity, uses := some ⟨.num (c - 1)⟩ })) := by
  unfold remainingCount at hcount
  have hnot : ¬ c ≤ 0 := not_le.mpr hc
  constructor
  · unfold consumeEmergencyD20 countField
    cases hquant : quantityOf (sysOf item) <;>
      cases huses : usesOf (sysOf item) <;>
      simp_all [JSVal.isNumber] <;>
      split at hcount <;> simp_all
  · intro s hs
    by_cases hnum : (quantityOf (sysOf item)).isNumber = true <;>
      simp [applyUpdate, applyKey, countField, hnum, hs]

/-- C3 at quantity 3 beside `uses.value = 5` (the quantity is decremented,
`uses` stays) and at `uses.value = 2` without a quantity. -/
theorem consume_positive_witness :
    (consumeEmergencyD20 (some (bothItem 3 5)) = ⟨true, some [("system.quantity", 2)]⟩ ∧
      applyUpdate (bothItem 3 5) [("system.quantity", 2)] = bothItem 2 5) ∧
    (consumeEmergencyD20 (some (usesItem 2)) = ⟨true, some [("system.uses.value", 1)]⟩ ∧
      applyUpdate (usesItem 2) [("system.uses.value", 1)] = usesItem 1) :=
  ⟨⟨(consume_positive (bothItem 3 5) 3 rfl (by decide)).1, by decide⟩,
   ⟨(consume_positive (usesItem 2) 2 rfl (by decide)).1, by decide⟩⟩

/-- C4: when neither the quantity nor `uses.value` is a number,
`hasUsesRemaining` returns true, `consumeEmergencyD20` returns true and issues
no item update, so the world is left as it was. -/
theorem unlimited_resource (item : Item)
    (hq : (quantityOf (sysOf item)).isNumber = false)
    (hu : ∀ uses, usesOf (sysOf item) = some uses → uses.value.isNumber = false) :
    hasUsesRemaining (some item) = true ∧
    consumeEmergencyD20 (some item) = ⟨true, none⟩ ∧
    ∀ w : World, recordUpdate w (consumeEmergencyD20 (some item)).issued = w := by
  have hc : consumeEmergencyD20 (some item) = ⟨true, none⟩ := by
    unfold consumeEmergencyD20
    cases hquant : quantityOf (sysOf item) <;>
      cases huses : usesOf (sysOf item) <;>
      simp_all [JSVal.isNumber] <;>
      split <;> simp_all [JSVal.isNumber]
  refine ⟨hasUsesRemaining_of_no_number item hq hu, hc, ?_⟩
  intro w
  rw [hc]
  rfl

/-- C4 at an item whose quantity is a string and whose `uses.value` is
undefined, and at an item without system data. -/
theorem unlimited_resource_witness :
    (hasUsesRemaining (some unlimitedItem) = true ∧
      consumeEmergencyD20 (some unlimitedItem) = ⟨true, none⟩) ∧
    (hasUsesRemaining (some (mkItem none)) = true ∧
      consumeEmergencyD20 (some (mkItem none)) = ⟨true, none⟩) :=
  ⟨⟨(unlimited_resource unlimitedItem rfl (by decide)).1,
    (unlimited_resource unlimitedItem rfl (by decide)).2.1⟩,
   ⟨(unlimited_resource (mkItem none) rfl (by decide)).1,
    (unlimited_resource (mkItem none) rfl (by decide)).2.1⟩⟩

/-! ## Modifier Extractor: theorems -/

/-- The loop of `computeModifierFromRoll` adds the totals of the 20-sided die
terms to its accumulator. -/
theorem foldl_d20Total (terms : List RollTerm) (acc : Int) :
    terms.foldl
      (fun acc term =>
        if term.isDie && term.faces == some 20 then acc + term.total.getD 0 else acc) acc
      = acc + ((terms.filter isD20Term).map (fun term => term.total.getD 0)).sum := by
  induction terms generalizing acc with
  | nil => simp
  | cons t ts ih =>
    rw [List.foldl_cons, ih]
    by_cases h : (t.isDie && t.faces == some 20) = true
    · have h2 : isD20Term t = true := h
      rw [if_pos h, List.filter_cons_of_pos h2, List.map_cons, List.sum_cons]
      ring
    · have h2 : ¬ isD20Term t = true := h
      rw [if_neg h, List.filter_cons_of_neg h2]

/-- The extractor in terms of the sum of the d20 term totals. -/
theorem computeModifierFromRoll_eq (roll : Roll) :
    computeModifierFromRoll roll =
      if d20TermTotals roll = 0 then 0 else roll.total - d20TermTotals roll := by
  unfold computeModifierFromRoll d20TermTotals
  simp only [foldl_d20Total, zero_add]

/-- C5, as stated, fails: the roll `noSuccessRoll` has a 20-sided die term, its
total minus the sum of its d20 term totals is 3, and `computeModifierFromRoll`
returns 0. -/
theorem computeModifier_counterexample :
    (∃ term ∈ noSuccessRoll.terms.getD [], isD20Term term = true) ∧
    noSuccessRoll.total - d20TermTotals noSuccessRoll = 3 ∧
    computeModifierFromRoll noSuccessRoll = 0 := by
  refine ⟨⟨d20Term 0, by decide, by decide⟩, by decide, by decide⟩

/-- C5, amended: when the totals of the 20-sided die terms of the roll do not
sum to 0, `computeModifierFromRoll` returns the roll's total minus that sum;
when they sum to 0 it returns 0. -/
theorem computeModifier_amended (roll : Roll) :
    (d20TermTotals roll ≠ 0 →
      computeModifierFromRoll roll = roll.total - d20TermTotals roll) ∧
    (d20TermTotals roll = 0 → computeModifierFromRoll roll = 0) := by
  rw [computeModifierFromRoll_eq]
  constructor
  · intro h
    rw [if_neg h]
  · intro h
    rw [if_pos h]

/-- C5 amended at the roll `1d20 + 3` that came up 12 (modifier 15 - 12 = 3). -/
theorem computeModifier_amended_witness :
    d20TermTotals checkRoll = 12 ∧ computeModifierFromRoll checkRoll = 15 - 12 :=
  ⟨by decide, (computeModifier_amended checkRoll).1 (by decide)⟩

/-! ## Reroll formula: theorems -/

/-- A digit below 10 prints as a decimal digit character of that value. -/
theorem digitChar_digit (d : Nat) (h : d < 10) :
    (Nat.digitChar d).isDigit = true ∧ (Nat.digitChar d).toNat - 48 = d := by
  interval_cases d <;> exact ⟨by decide, by decide⟩

/-- Reading the digits that `Nat.toDigitsCore` puts before `ds` gives `n`. -/
theorem readDigits_toDigitsCore (fuel : Nat) :
    ∀ (n : Nat) (ds : List Char), n < fuel →
      readDigits 0 (Nat.toDigitsCore 10 fuel n ds) = readDigits n ds := by
  induction fuel with
  | zero => intro n ds h; omega
  | succ fuel ih =>
    intro n ds h
    have hd := digitChar_digit (n % 10) (Nat.mod_lt n (by decide))
    unfold Nat.toDigitsCore
    simp only []
    by_cases h0 : n / 10 = 0
    · rw [if_pos h0]
      have hn : n % 10 = n := by omega
      simp only [readDigits, hd.1, hd.2, if_true]
      rw [hn]; simp
    · rw [if_neg h0, ih (n / 10) _ (by omega)]
      simp only [readDigits, hd.1, hd.2, if_true]
      have hn : n / 10 * 10 + n % 10 = n := by omega
      rw [hn]

/-- Reading the decimal digits of `n` gives `n` back. -/
theorem readDigits_toDigits (n : Nat) : readDigits 0 (Nat.toDigits 10 n) = some n := by
  unfold Nat.toDigits
  rw [readDigits_toDigitsCore (n + 1) n [] (Nat.lt_succ_self n)]
  rfl

/-- With fuel left, `Nat.toDigitsCore` yields at least one character. -/
theorem toDigitsCore_cons (fuel : Nat) :
    ∀ (n : Nat) (ds : List Char), ∃ c cs, Nat.toDigitsCore 10 (fuel + 1) n ds = c :: cs := by
  induction fuel with
  | zero =>
    intro n ds
    unfold Nat.toDigitsCore
    simp only []
    by_cases h0 : n / 10 = 0
    · rw [if_pos h0]; exact ⟨_, _, rfl⟩
    · rw [if_neg h0]; exact ⟨_, _, rfl⟩
  | succ fuel ih =>
    intro n ds
    unfold Nat.toDigitsCore
    simp only []
    by_cases h0 : n / 10 = 0
    · rw [if_pos h0]; exact ⟨_, _, rfl⟩
    · rw [if_neg h0]; exact ih _ _

/-- The decimal digits of a number are never empty. -/
theorem toDigits_cons (n : Nat) : ∃ c cs, Nat.toDigits 10 n = c :: cs :=
  toDigitsCore_cons n n []

/-- Reading `+` followed by the decimal digits of `n`. -/
theorem readConstant_plus (n : Nat) :
    readConstant ('+' :: Nat.toDigits 10 n) = some (Int.ofNat n) := by
  obtain ⟨c, cs, h⟩ := toDigits_cons n
  have hr := readDigits_toDigits n
  rw [h] at hr ⊢
  simp [readConstant, hr]

/-- Reading `-` followed by the decimal digits of `n`. -/
theorem readConstant_minus (n : Nat) :
    readConstant ('-' :: Nat.toDigits 10 n) = some (- Int.ofNat n) := by
  obtain ⟨c, cs, h⟩ := toDigits_cons n
  have hr := readDigits_toDigits n
  rw [h] at hr ⊢
  simp [readConstant, hr]

/-- The characters of the formula of a positive modifier. -/
theorem data_rerollFormula_pos (n : Nat) :
    (rerollFormula (Int.ofNat (n + 1))).data =
      '1' :: 'd' :: '2' :: '0' :: '+' :: Nat.toDigits 10 (n + 1) := by
  have h0 : ¬ (Int.ofNat (n + 1) = 0) := by
    intro h
    cases h
  have h1 : Int.ofNat (n + 1) ≥ 0 := Int.ofNat_nonneg _
  unfold rerollFormula
  rw [if_neg h0, if_pos h1]
  rfl

/-- The characters of the formula of a negative modifier. -/
theorem data_rerollFormula_neg (k : Nat) :
    (rerollFormula (Int.negSucc k)).data =
      '1' :: 'd' :: '2' :: '0' :: '-' :: Nat.toDigits 10 (k + 1) := by
  have h0 : ¬ (Int.negSucc k = 0) := by simp
  have h1 : ¬ (Int.negSucc k ≥ 0) := by simp [Int.negSucc_lt_zero]
  unfold rerollFormula
  rw [if_neg h0, if_neg h1]
  rfl

/-- Reading the formula built for `m` gives the constant `m`. -/
theorem readFormula_rerollFormula (m : Int) : readFormula (rerollFormula m) = some m := by
  cases m with
  | ofNat n =>
    cases n with
    | zero => rfl
    | succ n =>
      unfold readFormula
      rw [data_rerollFormula_pos]
      exact readConstant_plus (n + 1)
  | negSucc k =>
    unfold readFormula
    rw [data_rerollFormula_neg]
    simp only []
    rw [readConstant_minus (k + 1)]
    rfl

/-- C6: the reroll formula is `1d20` when `m = 0`, `1d20+` and the decimal of `m`
when `m > 0`, and `1d20` and the decimal of `m`, which starts with its minus
sign, when `m < 0`; read back as die value plus signed constant, its value for
the die value `v` is `v + m`, which lies in `[1 + m, 20 + m]` for `v` in 1..20. -/
theorem rerollFormula_reads_back (m v : Int) :
    (m = 0 → rerollFormula m = "1d20") ∧
    (0 < m → rerollFormula m = "1d20+" ++ toString m ∧ toString m = toString m.natAbs) ∧
    (m < 0 → rerollFormula m = "1d20" ++ toString m ∧
      toString m = "-" ++ toString m.natAbs) ∧
    evalFormula (rerollFormula m) v = some (v + m) ∧
    (1 ≤ v → v ≤ 20 →
      ∃ t, evalFormula (rerollFormula m) v = some t ∧ 1 + m ≤ t ∧ t ≤ 20 + m) := by
  have hev : evalFormula (rerollFormula m) v = some (v + m) := by
    unfold evalFormula
    rw [readFormula_rerollFormula]
    rfl
  refine ⟨?_, ?_, ?_, hev, ?_⟩
  · intro h
    rw [h]
    rfl
  · intro h
    have h0 : ¬ m = 0 := by omega
    have h1 : m ≥ 0 := by omega
    constructor
    · unfold rerollFormula
      rw [if_neg h0, if_pos h1]
      rfl
    · cases m with
      | ofNat n => rfl
      | negSucc k => simp [Int.negSucc_lt_zero] at h1
  · intro h
    have h0 : ¬ m = 0 := by omega
    have h1 : ¬ m ≥ 0 := by omega
    constructor
    · unfold rerollFormula
      rw [if_neg h0, if_neg h1]
      rfl
    · cases m with
      | ofNat n => exact absurd (Int.ofNat_nonneg n) h1
      | negSucc k => rfl
  · intro h1 h20
    exact ⟨v + m, hev, by omega, by omega⟩

/-- C6 at modifier -2 and die value 20: the formula is `1d20-2`, its value 18. -/
theorem rerollFormula_reads_back_witness :
    rerollFormula (-2) = "1d20-2" ∧
    evalFormula (rerollFormula (-2)) 20 = some (20 + -2) ∧
    ∃ t, evalFormula (rerollFormula (-2)) 20 = some t ∧ 1 + -2 ≤ t ∧ t ≤ 20 + -2 :=
  ⟨by decide, (rerollFormula_reads_back (-2) 20).2.2.2.1,
   (rerollFormula_reads_back (-2) 20).2.2.2.2 (by decide) (by decide)⟩

/-! ## Reroll Orchestrator: theorems -/

/-- On a present item the ledger succeeds exactly when the gate is open. -/
theorem consume_result_eq_gate (item : Item) :
    (consumeEmergencyD20 (some item)).result = hasUsesRemaining (some item) := by
  unfold consumeEmergencyD20 hasUsesRemaining
  cases hquant : quantityOf (sysOf item) <;>
    cases huses : usesOf (sysOf item) <;>
    simp only [] <;>
    repeat' split
  all_goals simp_all

/-- An unauthorized run only warns. -/
theorem handle_of_unauthorized (w : World)
    (ho : w.actor.isOwner = false) (hg : w.userIsGM = false) :
    handleEmergencyD20Click w = notify w (.warn "You do not control this actor.") := by
  simp [handleEmergencyD20Click, ho, hg]

/-- An authorized run on an unavailable item only warns. -/
theorem handle_of_unavailable (w : World)
    (hauth : w.actor.isOwner = true ∨ w.userIsGM = true)
    (hgate : hasUsesRemaining (some w.item) = false) :
    handleEmergencyD20Click w = notify w (.warn "No Emergency D20 remaining.") := by
  rcases hauth with h | h <;> simp [handleEmergencyD20Click, h, hgate]

/-- The host side of the ledger's update touches only the item and the log of
updates. -/
theorem recordUpdate_frame (w : World) (issued : Option ItemUpdate) :
    (recordUpdate w issued).message = w.message ∧
    (recordUpdate w issued).actor = w.actor ∧
    (recordUpdate w issued).userIsGM = w.userIsGM ∧
    (recordUpdate w issued).published = w.published ∧
    (recordUpdate w issued).notifications = w.notifications ∧
    (recordUpdate w issued).buttonShown = w.buttonShown := by
  cases issued <;> simp [recordUpdate]

/-- An authorized run on an available item and a message with a roll goes
through: the fields of the resulting world. -/
theorem handle_of_available (w : World) (roll : Roll) (rest : List Roll)
    (hauth : w.actor.isOwner = true ∨ w.userIsGM = true)
    (hgate : hasUsesRemaining (some w.item) = true)
    (hrolls : w.message.rolls = some (roll :: rest)) :
    (handleEmergencyD20Click w).item =
      (recordUpdate w (consumeEmergencyD20 (some w.item)).issued).item ∧
    (handleEmergencyD20Click w).itemUpdates =
      (recordUpdate w (consumeEmergencyD20 (some w.item)).issued).itemUpdates ∧
    (handleEmergencyD20Click w).message = setUsed w.message ∧
    (handleEmergencyD20Click w).published = w.published ++
      [{ formula := rerollFormula (computeModifierFromRoll roll)
         speaker := w.message.speaker
         flavor := strOr roll.flavor (strOr w.message.flavor "Emergency D20")
           ++ " (Emergency D20)"
         flags :=
          { used := none
            isEmergency := some true
            sourceMessageId := some w.message.id
            actorId := some w.actor.id
            itemId := some (recordUpdate w (consumeEmergencyD20 (some w.item)).issued).item.id } }] ∧
    (handleEmergencyD20Click w).notifications =
      w.notifications ++ [.info "Emergency D20 used!"] ∧
    (handleEmergencyD20Click w).buttonShown = false := by
  have hres := consume_result_eq_gate w.item
  rw [hgate] at hres
  obtain ⟨f1, f2, f3, f4, f5, f6⟩ :=
    recordUpdate_frame w (consumeEmergencyD20 (some w.item)).issued
  rcases hauth with h | h <;>
    simp [handleEmergencyD20Click, h, hgate, hrolls, hres, notify, setUsed, setIsEmergency,
      f1, f2, f3, f4, f5, f6]

/-- With a positive numeric quantity the ledger issues the decrement of the
quantity. -/
theorem consume_of_quantity (item : Item) (q : Int)
    (hq : quantityOf (sysOf item) = .num q) (hpos : 0 < q) :
    consumeEmergencyD20 (some item) = ⟨true, some [("system.quantity", q - 1)]⟩ := by
  have hnot : ¬ q ≤ 0 := not_le.mpr hpos
  simp [consumeEmergencyD20, hq, hnot]

/-- After the host applied an update of the quantity, the item's quantity is
the value written. -/
theorem quantityOf_applyUpdate (item : Item) (n : Int) :
    quantityOf (sysOf (applyUpdate item [("system.quantity", n)])) = .num n := by
  simp [applyUpdate, applyKey, sysOf, quantityOf]

/-- C7, evaluated on the code: two invocations of `handleEmergencyD20Click` in
strict sequence on the same message, by the owner, with quantity 2.  The first
sets the flag `used`; the second does not read it and goes through as well: two
item updates (the quantity ends at 0) and two published rerolls. -/
theorem handle_twice_consumes_twice :
    (handleEmergencyD20Click (clickWorld true (quantityItem 2))).message.flags.used
      = some true ∧
    (handleEmergencyD20Click (handleEmergencyD20Click
      (clickWorld true (quantityItem 2)))).itemUpdates
      = [[("system.quantity", 1)], [("system.quantity", 0)]] ∧
    (handleEmergencyD20Click (handleEmergencyD20Click
      (clickWorld true (quantityItem 2)))).item = quantityItem 0 ∧
    ((handleEmergencyD20Click (handleEmergencyD20Click
      (clickWorld true (quantityItem 2)))).published.map (fun m => m.formula))
      = ["1d20+3", "1d20+3"] := by
  refine ⟨by decide, by decide, by decide, by decide⟩

/-- C8: an invocation by an owner or GM on an item with numeric quantity
`q > 0` and a message that carries a roll issues the update of the quantity to
`q - 1` (after which the item's quantity is `q - 1`), sets the flag `used` on
the original message, and publishes one message flagged `isEmergency` whose
formula is built from the modifier extracted from the first roll.  For quantity
1, total 15 and one d20 term totalling 12: modifier 3, formula `1d20+3`, final
quantity 0. -/
theorem authorized_run :
    (∀ (w : World) (q : Int) (roll : Roll) (rest : List Roll),
      (w.actor.isOwner = true ∨ w.userIsGM = true) →
      quantityOf (sysOf w.item) = .num q → 0 < q →
      w.message.rolls = some (roll :: rest) →
      (handleEmergencyD20Click w).itemUpdates =
        w.itemUpdates ++ [[("system.quantity", q - 1)]] ∧
      (handleEmergencyD20Click w).item = applyUpdate w.item [("system.quantity", q - 1)] ∧
      quantityOf (sysOf (handleEmergencyD20Click w).item) = .num (q - 1) ∧
      (handleEmergencyD20Click w).message = setUsed w.message ∧
      (handleEmergencyD20Click w).message.flags.used = some true ∧
      ∃ m, (handleEmergencyD20Click w).published = w.published ++ [m] ∧
        m.flags.isEmergency = some true ∧
        m.formula = rerollFormula (computeModifierFromRoll roll)) ∧
    (computeModifierFromRoll checkRoll = 3 ∧
      rerollFormula 3 = "1d20+3" ∧
      (handleEmergencyD20Click (clickWorld true (quantityItem 1))).item = quantityItem 0 ∧
      (handleEmergencyD20Click (clickWorld true (quantityItem 1))).message.flags.used
        = some true ∧
      (handleEmergencyD20Click (clickWorld true (quantityItem 1))).published.map
        (fun m => (m.formula, m.flags.isEmergency)) = [("1d20+3", some true)]) := by
  constructor
  · intro w q roll rest hauth hq hpos hrolls
    have hgate : hasUsesRemaining (some w.item) = true := by
      simp [hasUsesRemaining, hq, hpos]
    obtain ⟨h1, h2, h3, h4, -, -⟩ := handle_of_available w roll rest hauth hgate hrolls
    rw [consume_of_quantity w.item q hq hpos] at h1 h2 h4
    have hitem : (handleEmergencyD20Click w).item =
        applyUpdate w.item [("system.quantity", q - 1)] := by
      rw [h1]; rfl
    refine ⟨by rw [h2]; rfl, hitem, ?_, h3, by rw [h3]; rfl, ⟨_, h4, rfl, rfl⟩⟩
    rw [hitem]
    exact quantityOf_applyUpdate w.item (q - 1)
  · refine ⟨by decide, by decide, by decide, by decide, by decide⟩

/-- C8 at the scenario world (owner, quantity 1, the roll `1d20 + 3` that came
up 12): the general statement applied there. -/
theorem authorized_run_witness :
    (handleEmergencyD20Click (clickWorld true (quantityItem 1))).itemUpdates
      = [] ++ [[("system.quantity", 1 - 1)]] ∧
    quantityOf (sysOf (handleEmergencyD20Click (clickWorld true (quantityItem 1))).item)
      = .num (1 - 1) :=
  ⟨(authorized_run.1 (clickWorld true (quantityItem 1)) 1 checkRoll []
      (Or.inl rfl) rfl (by decide) rfl).1,
   (authorized_run.1 (clickWorld true (quantityItem 1)) 1 checkRoll []
      (Or.inl rfl) rfl (by decide) rfl).2.2.1⟩

/-- C9: an invocation by an owner or GM in which the item is unavailable at the
availability check, or `consumeEmergencyD20` reports exhaustion, is rejected:
it makes no mutation (no item update, no flag written, nothing published) and
emits exactly one warning. -/
theorem unavailable_rejected (w : World)
    (hauth : w.actor.isOwner = true ∨ w.userIsGM = true)
    (hun : hasUsesRemaining (some w.item) = false ∨
      (consumeEmergencyD20 (some w.item)).result = false) :
    noMutation w (handleEmergencyD20Click w) ∧
    (handleEmergencyD20Click w).notifications =
      w.notifications ++ [.warn "No Emergency D20 remaining."] := by
  have hgate : hasUsesRemaining (some w.item) = false := by
    rcases hun with h | h
    · exact h
    · rw [← consume_result_eq_gate]; exact h
  rw [handle_of_unavailable w hauth hgate]
  simp [noMutation, notify]

/-- C9 at an owner's click on an item with quantity 0. -/
theorem unavailable_rejected_witness :
    noMutation (clickWorld true (quantityItem 0))
      (handleEmergencyD20Click (clickWorld true (quantityItem 0))) ∧
    (handleEmergencyD20Click (clickWorld true (quantityItem 0))).notifications =
      [] ++ [.warn "No Emergency D20 remaining."] :=
  unavailable_rejected (clickWorld true (quantityItem 0)) (Or.inl rfl) (Or.inl rfl)

/-- The notifications of an authorized run: nothing new, the availability
warning, or the closing information; never the authorization warning. -/
theorem authorized_notifications (w : World)
    (hauth : w.actor.isOwner = true ∨ w.userIsGM = true) :
    (handleEmergencyD20Click w).notifications = w.notifications ∨
    (handleEmergencyD20Click w).notifications =
      w.notifications ++ [.warn "No Emergency D20 remaining."] ∨
    (handleEmergencyD20Click w).notifications =
      w.notifications ++ [.info "Emergency D20 used!"] := by
  cases hgate : hasUsesRemaining (some w.item) with
  | false =>
    right; left
    rw [handle_of_unavailable w hauth hgate]
    rfl
  | true =>
    cases hrolls : w.message.rolls with
    | none =>
      left
      rcases hauth with h | h <;> simp [handleEmergencyD20Click, h, hgate, hrolls]
    | some rolls =>
      cases rolls with
      | nil =>
        left
        rcases hauth with h | h <;> simp [handleEmergencyD20Click, h, hgate, hrolls]
      | cons roll rest =>
        right; right
        exact (handle_of_available w roll rest hauth hgate hrolls).2.2.2.2.1

/-- C10: `handleEmergencyD20Click` rejects at the authorization check, with its
one warning and no mutation, exactly when the invoking user is neither the
actor's owner nor a GM.  The check comes first: the item's remaining uses play
no part, and an unauthorized invoker causes no item update and no flag write. -/
theorem unauthorized_rejected (w : World) :
    (noMutation w (handleEmergencyD20Click w) ∧
      (handleEmergencyD20Click w).notifications =
        w.notifications ++ [.warn "You do not control this actor."])
    ↔ (w.actor.isOwner = false ∧ w.userIsGM = false) := by
  constructor
  · rintro ⟨-, hn⟩
    by_contra hcon
    have hauth : w.actor.isOwner = true ∨ w.userIsGM = true := by
      cases ho : w.actor.isOwner <;> cases hg : w.userIsGM <;> simp_all
    rcases authorized_notifications w hauth with h | h | h
    · rw [h] at hn
      have := congrArg List.length hn
      simp at this
    · rw [h] at hn
      have := List.append_cancel_left hn
      simp at this
    · rw [h] at hn
      have := List.append_cancel_left hn
      simp at this
  · rintro ⟨ho, hg⟩
    rw [handle_of_unauthorized w ho hg]
    simp [noMutation, notify]

/-- C10 at a click by a user who neither owns the actor nor is a GM, on an
item with quantity 5: one warning, the item and the message untouched. -/
theorem unauthorized_rejected_witness :
    noMutation (clickWorld false (quantityItem 5))
      (handleEmergencyD20Click (clickWorld false (quantityItem 5))) ∧
    (handleEmergencyD20Click (clickWorld false (quantityItem 5))).notifications =
      [] ++ [.warn "You do not control this actor."] :=
  (unauthorized_rejected (clickWorld false (quantityItem 5))).mpr ⟨rfl, rfl⟩

/-! ## Check Classifier, Resource Locator and render hook: theorems -/

/-- The classifier is true exactly when the first roll has a d20 among its
dice. -/
theorem isD20TestMessage_eq_true_iff (message : ChatMessage) :
    isD20TestMessage message = true ↔ firstRollHasD20 message := by
  unfold isD20TestMessage firstRollHasD20
  cases hrolls : message.rolls with
  | none => simp
  | some rolls =>
    cases rolls with
    | nil => simp
    | cons roll rest =>
      cases hdice : roll.dice.getD [] with
      | nil => simp [hdice]
      | cons d ds => simp [hdice]

/-- C11: `isD20TestMessage` is true if and only if the message has at least one
roll and the dice of its first roll include a die with 20 faces; the rolls
after the first do not affect the result. -/
theorem isD20TestMessage_first_roll :
    (∀ message : ChatMessage, isD20TestMessage message = true ↔ firstRollHasD20 message) ∧
    (∀ (message : ChatMessage) (roll : Roll) (rest other : List Roll),
      isD20TestMessage { message with rolls := some (roll :: rest) } =
        isD20TestMessage { message with rolls := some (roll :: other) }) ∧
    (∀ (message : ChatMessage) (roll : Roll) (rest : List Roll),
      message.rolls = some (roll :: rest) →
      (∀ d ∈ roll.dice.getD [], d.faces ≠ some 20) →
      isD20TestMessage message = false) := by
  refine ⟨isD20TestMessage_eq_true_iff, ?_, ?_⟩
  · intro message roll rest other
    rfl
  · intro message roll rest hrolls hno
    cases h : isD20TestMessage message with
    | false => rfl
    | true =>
      obtain ⟨r, rs, hr, d, hd, hf⟩ := (isD20TestMessage_eq_true_iff message).mp h
      rw [hrolls] at hr
      cases hr
      exact absurd hf (hno d hd)

/-- C11 at a message whose first roll is a `2d6` and whose second roll has a
d20 (not eligible), and at one whose first roll is `1d20 + 3` (eligible). -/
theorem isD20TestMessage_first_roll_witness :
    isD20TestMessage (mkMessage (some [damageRoll, checkRoll]) none none) = false ∧
    isD20TestMessage (mkMessage (some [checkRoll, damageRoll]) none none) = true :=
  ⟨isD20TestMessage_first_roll.2.2 _ damageRoll [checkRoll] rfl (by decide),
   (isD20TestMessage_first_roll.1 _).mpr ⟨checkRoll, [damageRoll], rfl, d20Term 12, by decide, rfl⟩⟩

/-- C12: for a message whose flag `isEmergency` is true the render callback
attaches no button, whatever the flag `used`, the rolls, the actor and the item
are; and for a message whose flag `used` is true it attaches none either. -/
theorem render_skips_flagged (g : Game) (message : ChatMessage) :
    (message.flags.isEmergency = some true → renderChatMessageHTML g message = none) ∧
    (message.flags.used = some true → renderChatMessageHTML g message = none) := by
  constructor
  · intro h
    simp [renderChatMessageHTML, flagSet, h]
  · intro h
    unfold renderChatMessageHTML
    simp only [flagSet, h, beq_self_eq_true, if_true]
    repeat' split
    all_goals rfl

/-- C12 at an emergency reroll's own message (flag `used` absent) and at a
message already used, both with a d20 roll, an owned actor and uses left. -/
theorem render_skips_flagged_witness :
    renderChatMessageHTML (ownerGame []) (mkMessage (some [checkRoll]) none (some true)) = none ∧
    renderChatMessageHTML (ownerGame []) (mkMessage (some [checkRoll]) (some true) none) = none :=
  ⟨(render_skips_flagged (ownerGame []) (mkMessage (some [checkRoll]) none (some true))).1 rfl,
   (render_skips_flagged (ownerGame []) (mkMessage (some [checkRoll]) (some true) none)).2 rfl⟩

/-- C13: for a roll with no 20-sided die term `computeModifierFromRoll` returns
0, whatever the roll's total is. -/
theorem computeModifier_no_d20 (roll : Roll)
    (hno : ∀ term ∈ roll.terms.getD [], isD20Term term = false) :
    computeModifierFromRoll roll = 0 := by
  have hsum : d20TermTotals roll = 0 := by
    unfold d20TermTotals
    have hnil : (roll.terms.getD []).filter isD20Term = [] := by
      rw [List.filter_eq_nil_iff]
      intro term hterm
      rw [hno term hterm]
      simp
    rw [hnil]
    rfl
  rw [computeModifierFromRoll_eq, if_pos hsum]

/-- C13 at the damage roll `2d6` with total 7. -/
theorem computeModifier_no_d20_witness :
    damageRoll.total = 7 ∧ computeModifierFromRoll damageRoll = 0 :=
  ⟨rfl, computeModifier_no_d20 damageRoll (by decide)⟩

/-- C15: `findEmergencyD20Item` returns none for an absent actor; for an actor
it returns the first item, in the order of the collection, whose name equals
the configured name exactly, and none when no item has that name. -/
theorem findEmergencyD20Item_first (g : Game) :
    findEmergencyD20Item g none = none ∧
    (∀ (actor : Actor) (item : Item),
      findEmergencyD20Item g (some actor) = some item ↔
        item.name = g.itemName ∧
        ∃ before after, actor.items = before ++ item :: after ∧
          ∀ i ∈ before, i.name ≠ g.itemName) ∧
    (∀ actor : Actor,
      findEmergencyD20Item g (some actor) = none ↔
        ∀ i ∈ actor.items, i.name ≠ g.itemName) := by
  refine ⟨rfl, ?_, ?_⟩
  · intro actor item
    unfold findEmergencyD20Item
    simp [List.find?_eq_some]
  · intro actor
    unfold findEmergencyD20Item
    simp

/-- C15 at an actor carrying a lower-case namesake, then two items with the
configured name: the first exact match is returned; and at an actor carrying
only the lower-case namesake: none. -/
theorem findEmergencyD20Item_first_witness :
    findEmergencyD20Item (ownerGame [])
      (some (ownedActor [namedItem "a" "emergency d20", namedItem "b" "Emergency D20",
        namedItem "c" "Emergency D20"])) = some (namedItem "b" "Emergency D20") ∧
    findEmergencyD20Item (ownerGame [])
      (some (ownedActor [namedItem "a" "emergency d20"])) = none :=
  ⟨((findEmergencyD20Item_first (ownerGame [])).2.1 _ _).mpr
      ⟨rfl, [namedItem "a" "emergency d20"], [namedItem "c" "Emergency D20"], rfl, by decide⟩,
   ((findEmergencyD20Item_first (ownerGame [])).2.2 _).mpr (by decide)⟩

/-- C16: for a message whose first roll has no die of 20 faces among its dice
the render callback attaches no button, whatever the actor, the ownership and
the item are. -/
theorem render_skips_non_d20 (g : Game) (message : ChatMessage)
    (hno : ∀ roll rest, message.rolls = some (roll :: rest) →
      ∀ d ∈ roll.dice.getD [], d.faces ≠ some 20) :
    renderChatMessageHTML g message = none := by
  have hclass : isD20TestMessage message = false := by
    cases h : isD20TestMessage message with
    | false => rfl
    | true =>
      obtain ⟨r, rs, hr, d, hd, hf⟩ := (isD20TestMessage_eq_true_iff message).mp h
      exact absurd hf (hno r rs hr d hd)
  unfold renderChatMessageHTML
  simp only [hclass]
  repeat' split
  all_goals first | rfl | simp_all

/-- C16 at a damage roll `2d6` spoken by an owned actor with uses left. -/
theorem render_skips_non_d20_witness :
    renderChatMessageHTML (ownerGame []) (mkMessage (some [damageRoll]) none none) = none :=
  render_skips_non_d20 (ownerGame []) (mkMessage (some [damageRoll]) none none)
    (by
      intro roll rest h
      cases h
      decide)

/-! ## Publication and click listener: theorems -/

/-- The chain of `||` of line 284 is the label of the specification. -/
theorem strOr_eq_originalLabel (roll : Roll) (message : ChatMessage) :
    strOr roll.flavor (strOr message.flavor "Emergency D20") = originalLabel roll message := by
  unfold originalLabel strOr truthyStr
  cases hr : roll.flavor <;> cases hm : message.flavor <;> simp

/-- The host's update leaves the id of the item as it was. -/
theorem recordUpdate_item_id (w : World) (issued : Option ItemUpdate) :
    (recordUpdate w issued).item.id = w.item.id := by
  cases issued <;> simp [recordUpdate, applyUpdate]

/-- C14: on a successful run (authorized user, available item, a message with
a roll) the published message carries the speaker of the original, the flavor
made of the original's label (the roll's flavor option, else the message
flavor, else `Emergency D20`) and the suffix ` (Emergency D20)`, and the flags
`sourceMessageId`, `actorId`, `itemId` of the original message, the actor and
the item, with `isEmergency` true. -/
theorem published_message (w : World) (roll : Roll) (rest : List Roll)
    (hauth : w.actor.isOwner = true ∨ w.userIsGM = true)
    (hgate : hasUsesRemaining (some w.item) = true)
    (hrolls : w.message.rolls = some (roll :: rest)) :
    ∃ m, (handleEmergencyD20Click w).published = w.published ++ [m] ∧
      m.speaker = w.message.speaker ∧
      m.flavor = originalLabel roll w.message ++ " (Emergency D20)" ∧
      m.flags.sourceMessageId = some w.message.id ∧
      m.flags.actorId = some w.actor.id ∧
      m.flags.itemId = some w.item.id ∧
      m.flags.isEmergency = some true := by
  obtain ⟨-, -, -, hpub, -, -⟩ := handle_of_available w roll rest hauth hgate hrolls
  refine ⟨_, hpub, rfl, ?_, rfl, rfl, ?_, rfl⟩
  · simp only [strOr_eq_originalLabel]
  · simp only [recordUpdate_item_id]

/-- C14 at the owner's click on a message with flavor `Athletics` whose roll
has the flavor option `Stealth`: the roll's option wins. -/
theorem published_message_witness :
    ∃ m, (handleEmergencyD20Click
        ⟨false, mkMessage (some [stealthRoll]) none none, ownedActor [quantityItem 1],
          quantityItem 1, true, [], [], []⟩).published = [] ++ [m] ∧
      m.speaker = some ⟨some "actor1", none⟩ ∧
      m.flavor = "Stealth" ++ " (Emergency D20)" ∧
      m.flags.sourceMessageId = some "msg1" ∧
      m.flags.actorId = some "actor1" ∧
      m.flags.itemId = some "item1" ∧
      m.flags.isEmergency = some true :=
  published_message
    ⟨false, mkMessage (some [stealthRoll]) none none, ownedActor [quantityItem 1],
      quantityItem 1, true, [], [], []⟩
    stealthRoll [] (Or.inl rfl) rfl rfl

/-- C17, evaluated on the code: when the message of the button is not among
`game.messages` the listener returns without any `ui.notifications` call (it
only writes to the console), as for the button of `msg1` in a world without
messages.  When the message is found and the actor or the item is not, it
returns with one warning.  In none of the three cases does it enter the
orchestrator. -/
theorem click_unresolved :
    clickListener (ownerGame []) ⟨"msg1", "actor1", "item1"⟩ = .unresolved [] ∧
    (∀ (g : Game) (button : Affordance),
      g.messages.find? (fun m => m.id == button.messageId) = none →
      clickListener g button = .unresolved []) ∧
    (∀ (g : Game) (button : Affordance) (msg : ChatMessage),
      g.messages.find? (fun m => m.id == button.messageId) = some msg →
      clickActor g button.actorId = none →
      clickListener g button = .unresolved [.warn "Emergency D20: Could not find actor."]) ∧
    (∀ (g : Game) (button : Affordance) (msg : ChatMessage) (act : Actor),
      g.messages.find? (fun m => m.id == button.messageId) = some msg →
      clickActor g button.actorId = some act →
      act.items.find? (fun i => i.id == button.itemId) = none →
      clickListener g button =
        .unresolved [.warn "Emergency D20: Could not find Emergency D20 item."]) := by
  refine ⟨by decide, ?_, ?_, ?_⟩
  · intro g button hmsg
    simp only [clickListener, hmsg]
  · intro g button msg hmsg hact
    simp only [clickListener, hmsg, hact]
  · intro g button msg act hmsg hact hitem
    simp only [clickListener, hmsg, hact, hitem]

/-! ## Interleaving and repeated consumption: theorems -/

/-- The orchestrator is its uninterrupted part followed, when it got that far,
by its resumption on the same world. -/
theorem handle_eq_prefix_resume (w : World) :
    handleEmergencyD20Click w =
      match clickPrefix w with
      | .inl w1 => w1
      | .inr s => clickResume w s := by
  unfold handleEmergencyD20Click clickPrefix
  split
  · rfl
  · split
    · rfl
    · split <;> rfl

/-- The uninterrupted part of an authorized run on a positive quantity and a
message with a roll: it suspends with the decrement of the quantity issued. -/
theorem clickPrefix_of_quantity (w : World) (q : Int) (roll : Roll) (rest : List Roll)
    (hauth : w.actor.isOwner = true ∨ w.userIsGM = true)
    (hq : quantityOf (sysOf w.item) = .num q) (hpos : 0 < q)
    (hrolls : w.message.rolls = some (roll :: rest)) :
    clickPrefix w = .inr ⟨roll, rerollFormula (computeModifierFromRoll roll),
      ⟨true, some [("system.quantity", q - 1)]⟩⟩ := by
  have hgate : hasUsesRemaining (some w.item) = true := by
    simp [hasUsesRemaining, hq, hpos]
  have hcons := consume_of_quantity w.item q hq hpos
  rcases hauth with h | h <;> simp [clickPrefix, h, hgate, hrolls, hcons]

/-- C18, as stated, fails: two invocations by the owner on an item with
quantity 1, both passing the gate before either update is applied, both
succeed (two updates issued, two rerolls published), each update writes the
quantity 0, and the final quantity is 0, not -1. -/
theorem interleaved_counterexample :
    (interleavedTwice (clickWorld true (quantityItem 1))).itemUpdates =
      [[("system.quantity", 0)], [("system.quantity", 0)]] ∧
    (interleavedTwice (clickWorld true (quantityItem 1))).published.length = 2 ∧
    quantityOf (sysOf (interleavedTwice (clickWorld true (quantityItem 1))).item) = .num 0 ∧
    quantityOf (sysOf (interleavedTwice (clickWorld true (quantityItem 1))).item) ≠ .num (-1) := by
  refine ⟨by decide, by decide, by decide, by decide⟩

/-- C18, amended: two invocations by an owner or GM on an item with numeric
quantity `q > 0` and a message with a roll, both passing the gate before either
update is applied, both succeed: each issues the update of the quantity to
`q - 1`, each publishes a reroll and reports success, and the final quantity
is `q - 1` (0 for quantity 1). -/
theorem interleaved_both_succeed (w : World) (q : Int) (roll : Roll) (rest : List Roll)
    (hauth : w.actor.isOwner = true ∨ w.userIsGM = true)
    (hq : quantityOf (sysOf w.item) = .num q) (hpos : 0 < q)
    (hrolls : w.message.rolls = some (roll :: rest)) :
    (interleavedTwice w).itemUpdates =
      w.itemUpdates ++ [[("system.quantity", q - 1)], [("system.quantity", q - 1)]] ∧
    (interleavedTwice w).published.length = w.published.length + 2 ∧
    (interleavedTwice w).notifications =
      w.notifications ++ [.info "Emergency D20 used!", .info "Emergency D20 used!"] ∧
    quantityOf (sysOf (interleavedTwice w).item) = .num (q - 1) := by
  have hpre := clickPrefix_of_quantity w q roll rest hauth hq hpos hrolls
  unfold interleavedTwice
  simp only [hpre]
  simp [clickResume, recordUpdate, notify, applyUpdate, applyKey, sysOf, quantityOf]

/-- C18 amended at the owner's two clicks on quantity 1: final quantity 0. -/
theorem interleaved_both_succeed_witness :
    (interleavedTwice (clickWorld true (quantityItem 1))).itemUpdates =
      [] ++ [[("system.quantity", 1 - 1)], [("system.quantity", 1 - 1)]] ∧
    quantityOf (sysOf (interleavedTwice (clickWorld true (quantityItem 1))).item)
      = .num (1 - 1) :=
  ⟨(interleaved_both_succeed (clickWorld true (quantityItem 1)) 1 checkRoll []
      (Or.inl rfl) rfl (by decide) rfl).1,
   (interleaved_both_succeed (clickWorld true (quantityItem 1)) 1 checkRoll []
      (Or.inl rfl) rfl (by decide) rfl).2.2.2⟩

/-- C19: on every present item `consumeEmergencyD20` returns true if and only
if `hasUsesRemaining` returns true, and both decide on the same field: the
quantity when it is a number, otherwise `uses.value` when it is a number. -/
theorem gate_ledger_agree :
    (∀ item : Item,
      (consumeEmergencyD20 (some item)).result = true ↔ hasUsesRemaining (some item) = true) ∧
    (∀ (item : Item) (q : Int), quantityOf (sysOf item) = .num q →
      hasUsesRemaining (some item) = decide (q > 0) ∧
      (consumeEmergencyD20 (some item)).result = decide (q > 0)) ∧
    (∀ (item : Item) (uses : Uses) (v : Int),
      (quantityOf (sysOf item)).isNumber = false →
      usesOf (sysOf item) = some uses → uses.value = .num v →
      hasUsesRemaining (some item) = decide (v > 0) ∧
      (consumeEmergencyD20 (some item)).result = decide (v > 0)) := by
  refine ⟨?_, ?_, ?_⟩
  · intro item
    rw [consume_result_eq_gate]
  · intro item q hq
    have hgate : hasUsesRemaining (some item) = decide (q > 0) := by
      simp [hasUsesRemaining, hq]
    exact ⟨hgate, by rw [consume_result_eq_gate, hgate]⟩
  · intro item uses v hq hu hv
    have hgate : hasUsesRemaining (some item) = decide (v > 0) := by
      cases hquant : quantityOf (sysOf item) <;>
        simp_all [hasUsesRemaining, JSVal.isNumber]
    exact ⟨hgate, by rw [consume_result_eq_gate, hgate]⟩

/-- C19 at quantity 0 beside `uses.value = 5` (both closed, on the quantity)
and at `uses.value = 2` without a quantity (both open, on the uses value). -/
theorem gate_ledger_agree_witness :
    (hasUsesRemaining (some (bothItem 0 5)) = decide ((0 : Int) > 0) ∧
      (consumeEmergencyD20 (some (bothItem 0 5))).result = decide ((0 : Int) > 0)) ∧
    (hasUsesRemaining (some (usesItem 2)) = decide ((2 : Int) > 0) ∧
      (consumeEmergencyD20 (some (usesItem 2))).result = decide ((2 : Int) > 0)) :=
  ⟨gate_ledger_agree.2.1 (bothItem 0 5) 0 rfl,
   gate_ledger_agree.2.2 (usesItem 2) ⟨.num 2⟩ 2 rfl rfl rfl⟩

/-- What the ledger issues: nothing, the decrement of a positive quantity, or,
the quantity not being a number, the decrement of a positive uses value. -/
theorem consume_issued_cases (item : Item) :
    (consumeEmergencyD20 (some item)).issued = none ∨
    (∃ q, quantityOf (sysOf item) = .num q ∧ 0 < q ∧
      (consumeEmergencyD20 (some item)).issued = some [("system.quantity", q - 1)]) ∨
    (∃ uses v, (quantityOf (sysOf item)).isNumber = false ∧
      usesOf (sysOf item) = some uses ∧ uses.value = .num v ∧ 0 < v ∧
      (consumeEmergencyD20 (some item)).issued = some [("system.uses.value", v - 1)]) := by
  cases hquant : quantityOf (sysOf item) with
  | num q =>
    by_cases hq : q ≤ 0
    · left
      simp [consumeEmergencyD20, hquant, hq]
    · right; left
      exact ⟨q, rfl, not_le.mp hq, by simp [consumeEmergencyD20, hquant, hq]⟩
  | undefined | null | str _ | bool _ =>
    cases huses : usesOf (sysOf item) with
    | none =>
      left
      simp [consumeEmergencyD20, hquant, huses]
    | some uses =>
      cases hval : uses.value with
      | num v =>
        by_cases hv : v ≤ 0
        · left
          simp [consumeEmergencyD20, hquant, huses, hval, hv]
        · right; right
          exact ⟨uses, v, rfl, rfl, hval, not_le.mp hv,
            by simp [consumeEmergencyD20, hquant, huses, hval, hv]⟩
      | undefined | null | str _ | bool _ =>
        left
        simp [consumeEmergencyD20, hquant, huses, hval]

/-- One call of the ledger keeps a non-negative quantity non-negative. -/
theorem quantityNonneg_consumeStep (item : Item) (h : quantityNonneg item = true) :
    quantityNonneg (consumeStep item) = true := by
  unfold consumeStep
  rcases consume_issued_cases item with hc | ⟨q, hq, hpos, hc⟩ | ⟨uses, v, hq, hu, hv, hpos, hc⟩
  · rw [hc]
    exact h
  · rw [hc]
    have : 0 ≤ q - 1 := by omega
    simp [quantityNonneg, applyUpdate, applyKey, sysOf, quantityOf, this]
  · rw [hc]
    cases hs : item.system with
    | none => simp [quantityNonneg, applyUpdate, applyKey, sysOf, quantityOf, hs]
    | some sd =>
      have hsys : sysOf item = some sd := by simp [sysOf, hs]
      rw [hsys] at hq
      simp only [quantityOf] at hq
      cases hsd : sd.quantity <;>
        simp_all [quantityNonneg, applyUpdate, applyKey, sysOf, quantityOf, JSVal.isNumber]

/-- One call of the ledger keeps a non-negative uses value non-negative. -/
theorem usesNonneg_consumeStep (item : Item) (h : usesNonneg item = true) :
    usesNonneg (consumeStep item) = true := by
  unfold consumeStep
  rcases consume_issued_cases item with hc | ⟨q, hq, hpos, hc⟩ | ⟨uses, v, hq, hu, hv, hpos, hc⟩
  · rw [hc]
    exact h
  · rw [hc]
    cases hs : item.system with
    | none => simp [usesNonneg, applyUpdate, applyKey, sysOf, usesOf, hs]
    | some sd =>
      have hsys : sysOf item = some sd := by simp [sysOf, hs]
      have h2 := h
      simp only [usesNonneg, hsys, usesOf] at h2
      simp only [usesNonneg, applyUpdate, applyKey, sysOf, usesOf, hs, Option.getD_some,
        List.foldl_cons, List.foldl_nil, if_true]
      exact h2
  · rw [hc]
    have : 0 ≤ v - 1 := by omega
    simp [usesNonneg, applyUpdate, applyKey, sysOf, usesOf, this]

/-- C20: every update `consumeEmergencyD20` issues writes a value that is at
least 0, computed from the positive count it read; so no call, and no sequence
of calls each reading the item left by the call before it, takes the quantity
or the uses value from a non-negative number to a negative one. -/
theorem consume_never_negative :
    (∀ (item : Item) (update : ItemUpdate),
      (consumeEmergencyD20 (some item)).issued = some update →
      ∃ c, remainingCount item = some c ∧ 0 < c ∧ update = [(countField item, c - 1)] ∧
        0 ≤ c - 1) ∧
    (∀ (n : Nat) (item : Item),
      quantityNonneg item = true → quantityNonneg (consumeTimes n item) = true) ∧
    (∀ (n : Nat) (item : Item),
      usesNonneg item = true → usesNonneg (consumeTimes n item) = true) := by
  refine ⟨?_, ?_, ?_⟩
  · intro item update hissued
    rcases consume_issued_cases item with
      hc | ⟨q, hq, hpos, hc⟩ | ⟨uses, v, hq, hu, hv, hpos, hc⟩
    · rw [hc] at hissued
      cases hissued
    · rw [hc] at hissued
      cases hissued
      refine ⟨q, by simp [remainingCount, hq], hpos, ?_, by omega⟩
      simp [countField, hq, JSVal.isNumber]
    · rw [hc] at hissued
      cases hissued
      refine ⟨v, ?_, hpos, ?_, by omega⟩
      · cases hquant : quantityOf (sysOf item) <;>
          simp_all [remainingCount, JSVal.isNumber]
      · simp [countField, hq]
  · intro n
    induction n with
    | zero => intro item h; exact h
    | succ n ih =>
      intro item h
      exact ih (consumeStep item) (quantityNonneg_consumeStep item h)
  · intro n
    induction n with
    | zero => intro item h; exact h
    | succ n ih =>
      intro item h
      exact ih (consumeStep item) (usesNonneg_consumeStep item h)

/-- C20 at five calls in sequence on quantity 3 (the quantity ends at 0) and
on `uses.value = 2` beside no quantity. -/
theorem consume_never_negative_witness :
    consumeTimes 5 (quantityItem 3) = quantityItem 0 ∧
    quantityNonneg (consumeTimes 5 (quantityItem 3)) = true ∧
    usesNonneg (consumeTimes 5 (usesItem 2)) = true :=
  ⟨by decide, consume_never_negative.2.1 5 (quantityItem 3) rfl,
   consume_never_negative.2.2 5 (usesItem 2) rfl⟩

end EmergencyD20
